import Mathlib

/-!
Verification of the consolidation and correlation pipeline of the
longevity-dashboard repository (`scripts/consolidate-data.py`).

The embedding below translates the processing functions of
`consolidate-data.py` into Lean:

* numeric JSON values are modelled as `ℚ` (the Pearson layer, which takes a
  float square root, is modelled over `ℝ`);
* Python dicts with optional keys become structures of `Option` fields;
* insertion-ordered dicts keyed by date strings become association lists
  `List (String × _)` with unique keys, updated in place and appended at the
  end exactly as `defaultdict` does;
* Python's `round(x, n)` (round-half-to-even on exact decimals) is modelled
  by `pyRound`/`pyRound1`/`pyRound2` below;
* a Python `TypeError` escaping a processing function is modelled by
  `Except Unit` / `Option` results.
-/

/-- Round half to even (Python's `round`): nearest integer, ties to even. -/
def pyRound (q : ℚ) : ℤ :=
  if Int.fract q < 1/2 then ⌊q⌋
  else if 1/2 < Int.fract q then ⌊q⌋ + 1
  else if ⌊q⌋ % 2 = 0 then ⌊q⌋ else ⌊q⌋ + 1

/-- Python's `round(q, 1)`. -/
def pyRound1 (q : ℚ) : ℚ := (pyRound (q * 10) : ℚ) / 10

/-- Python's `round(q, 2)`. -/
def pyRound2 (q : ℚ) : ℚ := (pyRound (q * 100) : ℚ) / 100

/-! ### Glucose source (`process_lingo_data`) -/

/-- One entry of the glucose document's `history` array.  `timestamp`
models `reading.get("timestamp", "")` (missing key ↦ `""`); `value` models
`reading.get("value")` (missing key or JSON null ↦ `none`). -/
structure GlucoseReading where
  timestamp : String
  value : Option ℚ
deriving DecidableEq

/-- The glucose document `{history: [...]}`. -/
structure LingoDoc where
  history : List GlucoseReading
deriving DecidableEq

/-- The per-day glucose statistics dict built by `process_lingo_data`. -/
structure GlucoseDay where
  average : ℚ
  min : ℚ
  max : ℚ
  readings : ℕ
  inRange : ℕ
  timeInRangePercent : ℚ
deriving DecidableEq

/-- `readings_by_date[date].append(v)` on an insertion-ordered
`defaultdict(list)`: update the (unique) entry for `date` in place, or
append a new singleton bucket at the end. -/
def updAppend : List (String × List (Option ℚ)) → String → Option ℚ →
    List (String × List (Option ℚ))
  | [], date, v => [(date, [v])]
  | p :: rest, date, v =>
      if p.1 = date then (p.1, p.2 ++ [v]) :: rest else p :: updAppend rest date v

/-- Materialise a list of optional values, failing (like Python's
`sum`/`min`/`max` raising `TypeError` on a `None` operand) if any entry is
`none`. -/
def allSome : List (Option ℚ) → Option (List ℚ)
  | [] => some []
  | none :: _ => none
  | some v :: rest => (allSome rest).map (v :: ·)

/-- The daily-stats dict computed in the second loop of
`process_lingo_data`.  `none` models the uncaught `TypeError` that
`sum(values)` raises when a reading's value was missing/null (such a `None`
is appended to the day's bucket by the first loop). -/
def glucoseDayStats (values : List (Option ℚ)) : Option GlucoseDay :=
  match allSome values with
  | none => none
  | some vs =>
      some { average := pyRound1 (vs.sum / vs.length)
             min := (vs.min?).getD 0
             max := (vs.max?).getD 0
             readings := vs.length
             inRange := vs.countP (fun v => decide (70 ≤ v ∧ v ≤ 140))
             timeInRangePercent :=
               pyRound1 ((vs.countP (fun v => decide (70 ≤ v ∧ v ≤ 140)) : ℚ) / vs.length * 100) }

/-- `process_lingo_data`: group readings by the date portion (first 10
characters) of their timestamp, skipping readings whose timestamp is
empty/missing, then compute daily statistics.  `Except.error ()` models the
`TypeError` raised (and not caught) when a bucket contains a `None` value;
that error aborts the whole source's processing, as in the Python code. -/
def process_lingo_data (lingo : LingoDoc) :
    Except Unit (List (String × GlucoseDay)) :=
  let readings_by_date := lingo.history.foldl
    (fun acc reading =>
      if reading.timestamp ≠ "" then
        updAppend acc (reading.timestamp.take 10) reading.value
      else acc) []
  readings_by_date.foldlM
    (fun daily p =>
      if p.2 ≠ [] then
        match glucoseDayStats p.2 with
        | some st => Except.ok (daily ++ [(p.1, st)])
        | none => Except.error ()
      else Except.ok daily) []

/-! ### Recovery-tracker source (`process_whoop_data`) -/

/-- The nested `score` object of a Whoop recovery record. -/
structure RecoveryScore where
  recovery_score : Option ℚ
  hrv_rmssd_milli : Option ℚ
  resting_heart_rate : Option ℚ
deriving DecidableEq

/-- The nested `stage_summary` object of a Whoop sleep score. -/
structure StageSummary where
  total_light_sleep_time_milli : Option ℚ
  total_slow_wave_sleep_time_milli : Option ℚ
  total_rem_sleep_time_milli : Option ℚ
deriving DecidableEq

/-- The nested `score` object of a Whoop sleep record. -/
structure SleepScore where
  stage_summary : Option StageSummary
  sleep_performance_percentage : Option ℚ
  sleep_efficiency_percentage : Option ℚ
deriving DecidableEq

/-- The nested `score` object of a Whoop workout record. -/
structure WorkoutScore where
  strain : Option ℚ
deriving DecidableEq

/-- One record of a Whoop stream: `created_at` models
`record.get("created_at", "")`; `score = none` models a missing (or empty,
hence falsy) `score` object. -/
structure WhoopRecord (σ : Type) where
  created_at : String
  score : Option σ
deriving DecidableEq

/-- The recovery-tracker document `{recovery: [...], sleep: [...],
workout: [...]}`. -/
structure WhoopDoc where
  recovery : List (WhoopRecord RecoveryScore)
  sleep : List (WhoopRecord SleepScore)
  workout : List (WhoopRecord WorkoutScore)
deriving DecidableEq

/-- The per-day `"whoop"` sub-dict built by `process_whoop_data`.  A key a
loop sets to `None` and a key never set are both modelled as `none` (they
are indistinguishable to every downstream `.get`). -/
structure WhoopDay where
  recoveryScore : Option ℚ := none
  hrvMs : Option ℚ := none
  restingHeartRate : Option ℚ := none
  sleepHours : Option ℚ := none
  deepSleepHours : Option ℚ := none
  remSleepHours : Option ℚ := none
  lightSleepHours : Option ℚ := none
  sleepPerformance : Option ℚ := none
  sleepEfficiency : Option ℚ := none
  strain : Option ℚ := none
deriving DecidableEq

instance : EmptyCollection WhoopDay := ⟨{}⟩

/-- The HRV unit heuristic of the recovery loop:
`hrv_ms = hrv_raw if hrv_raw > 1 else hrv_raw * 1000`, then `round(_, 1)`. -/
def normalizeHrv (hrv_raw : ℚ) : ℚ :=
  pyRound1 (if hrv_raw > 1 then hrv_raw else hrv_raw * 1000)

/-- Body of the recovery loop for one record's `score`. -/
def applyRecovery (day : WhoopDay) (score : RecoveryScore) : WhoopDay :=
  { day with
    recoveryScore := score.recovery_score
    hrvMs := match score.hrv_rmssd_milli with
      | some hrv_raw => some (normalizeHrv hrv_raw)
      | none => day.hrvMs
    restingHeartRate := score.resting_heart_rate }

/-- Body of the sleep loop for one record's `score`.  `3600000` is the
code's `1000 * 60 * 60`. -/
def applySleep (day : WhoopDay) (score : SleepScore) : WhoopDay :=
  let stage_summary := score.stage_summary.getD ⟨none, none, none⟩
  let total_sleep_ms := stage_summary.total_light_sleep_time_milli.getD 0 +
    stage_summary.total_slow_wave_sleep_time_milli.getD 0 +
    stage_summary.total_rem_sleep_time_milli.getD 0
  let day1 := if total_sleep_ms > 0 then
      { day with
        sleepHours := some (pyRound2 (total_sleep_ms / (1000 * 60 * 60)))
        deepSleepHours := some (pyRound2
          (stage_summary.total_slow_wave_sleep_time_milli.getD 0 / (1000 * 60 * 60)))
        remSleepHours := some (pyRound2
          (stage_summary.total_rem_sleep_time_milli.getD 0 / (1000 * 60 * 60)))
        lightSleepHours := some (pyRound2
          (stage_summary.total_light_sleep_time_milli.getD 0 / (1000 * 60 * 60))) }
    else day
  { day1 with
    sleepPerformance := score.sleep_performance_percentage
    sleepEfficiency := score.sleep_efficiency_percentage }

/-- Body of the workout loop for one record's `score`:
`strain = max(current, new)` with both sides defaulting to `0`
(`score.get("strain") or 0` maps `None` and the falsy `0.0` alike to `0`). -/
def applyWorkout (day : WhoopDay) (score : WorkoutScore) : WhoopDay :=
  let current_strain := day.strain.getD 0
  let new_strain := score.strain.getD 0
  { day with strain := some (max current_strain new_strain) }

/-- `daily[date]` update on the insertion-ordered `defaultdict`:
mutate the (unique) existing entry, or append a fresh one initialised from
the empty day. -/
def updDay : List (String × WhoopDay) → String → (WhoopDay → WhoopDay) →
    List (String × WhoopDay)
  | [], date, f => [(date, f ∅)]
  | p :: rest, date, f =>
      if p.1 = date then (p.1, f p.2) :: rest else p :: updDay rest date f

/-- One of the three per-stream loops of `process_whoop_data`: records with
an empty/missing `created_at` or a missing/falsy `score` are skipped, the
rest update the accumulator at the date portion (first 10 characters) of
`created_at`. -/
def processStream {σ : Type} (apply : WhoopDay → σ → WhoopDay)
    (records : List (WhoopRecord σ)) (daily : List (String × WhoopDay)) :
    List (String × WhoopDay) :=
  records.foldl
    (fun daily record =>
      if record.created_at ≠ "" then
        match record.score with
        | some score => updDay daily (record.created_at.take 10) (fun day => apply day score)
        | none => daily
      else daily) daily

/-- `process_whoop_data`: fold the recovery, sleep and workout streams, in
that order, into one per-date accumulator. -/
def process_whoop_data (whoop : WhoopDoc) : List (String × WhoopDay) :=
  processStream applyWorkout whoop.workout
    (processStream applySleep whoop.sleep
      (processStream applyRecovery whoop.recovery []))

/-- The score objects of the records of one stream that land on `date`
(records with an empty timestamp or no score are dropped). -/
def streamScores {σ : Type} (records : List (WhoopRecord σ)) (date : String) :
    List σ :=
  records.filterMap (fun record =>
    if record.created_at ≠ "" ∧ record.created_at.take 10 = date then record.score
    else none)

/-- The per-event strain values of the workout records landing on `date`,
a missing per-event strain read as `0`. -/
def workoutStrains (whoop : WhoopDoc) (date : String) : List ℚ :=
  (streamScores whoop.workout date).map (fun score => score.strain.getD 0)

/-! ### Activity-tracker source and the Daily Merger (`merge_daily_data`)

`process_garmin_data` is not the subject of any claim; of its per-day
`"garmin"` sub-dict we model the two fields the claimed computations
(correlations and summary) read.  An absent key is `none`, the empty
sub-dict is the all-`none` record. -/

structure GarminDay where
  steps : Option ℚ := none
  totalActivityDuration : Option ℚ := none
deriving DecidableEq

instance : EmptyCollection GarminDay := ⟨{}⟩

/-- One merged daily record.  `garmin`/`whoop` sub-dicts have optional
keys, so their empty dict is the all-`none` structure; the `glucose`
sub-dict is written all-at-once by `process_lingo_data`, so the empty dict
is `none`. -/
structure DailyRecord where
  date : String
  garmin : GarminDay
  whoop : WhoopDay
  glucose : Option GlucoseDay
deriving DecidableEq

/-- `set(garmin_daily) | set(glucose_daily) | set(whoop_daily)`. -/
def all_dates (garmin_daily : List (String × GarminDay))
    (glucose_daily : List (String × GlucoseDay))
    (whoop_daily : List (String × WhoopDay)) : Finset String :=
  (garmin_daily.map Prod.fst).toFinset ∪ (glucose_daily.map Prod.fst).toFinset ∪
    (whoop_daily.map Prod.fst).toFinset

/-- `merge_daily_data`: one record per date of the sorted union of the key
sets; a source's sub-record is looked up by date and defaults to the empty
dict.  (In the Python code each per-source mapping stores the sub-dict
under an extra namespace key; the association lists here map the date
directly to that sub-dict.) -/
def merge_daily_data (garmin_daily : List (String × GarminDay))
    (glucose_daily : List (String × GlucoseDay))
    (whoop_daily : List (String × WhoopDay)) : List DailyRecord :=
  ((all_dates garmin_daily glucose_daily whoop_daily).sort (· ≤ ·)).map
    (fun date =>
      { date := date
        garmin := (garmin_daily.lookup date).getD ∅
        whoop := (whoop_daily.lookup date).getD ∅
        glucose := glucose_daily.lookup date })

/-! ### Correlation Engine (`calculate_correlations`) -/

/-- Both optional values present and truthy (Python's `if x and y:`; a
value of exactly `0` is falsy and therefore excluded). -/
def truthyPair (a b : Option ℚ) : Option (ℚ × ℚ) :=
  match a, b with
  | some x, some y => if x ≠ 0 ∧ y ≠ 0 then some (x, y) else none
  | _, _ => none

/-- The seven pair lists accumulated by the record loop of
`calculate_correlations`. -/
structure PairLists where
  steps_sleep : List (ℚ × ℚ)
  steps_glucose : List (ℚ × ℚ)
  sleep_glucose : List (ℚ × ℚ)
  exercise_glucose : List (ℚ × ℚ)
  sleep_recovery : List (ℚ × ℚ)
  hrv_sleep : List (ℚ × ℚ)
  steps_recovery : List (ℚ × ℚ)
deriving DecidableEq

/-- Loop body of `calculate_correlations` for one daily record: append to
each pair list when both variables are truthy; activity duration is
divided by 60 (seconds → minutes) before pairing. -/
def collectRecord (acc : PairLists) (record : DailyRecord) : PairLists :=
  let steps := record.garmin.steps
  let sleep_hours := record.whoop.sleepHours
  let recovery_score := record.whoop.recoveryScore
  let hrv := record.whoop.hrvMs
  let glucose_avg := record.glucose.map GlucoseDay.average
  let activity_duration := record.garmin.totalActivityDuration
  { steps_sleep := acc.steps_sleep ++ (truthyPair steps sleep_hours).toList
    steps_glucose := acc.steps_glucose ++ (truthyPair steps glucose_avg).toList
    sleep_glucose := acc.sleep_glucose ++ (truthyPair sleep_hours glucose_avg).toList
    exercise_glucose := acc.exercise_glucose ++
      ((truthyPair activity_duration glucose_avg).map (fun p => (p.1 / 60, p.2))).toList
    sleep_recovery := acc.sleep_recovery ++ (truthyPair sleep_hours recovery_score).toList
    hrv_sleep := acc.hrv_sleep ++ (truthyPair hrv sleep_hours).toList
    steps_recovery := acc.steps_recovery ++ (truthyPair steps recovery_score).toList }

/-- The pair-collection loop over all daily records. -/
def collectPairs (daily_data : List DailyRecord) : PairLists :=
  daily_data.foldl collectRecord ⟨[], [], [], [], [], [], []⟩

/-- `sum(l) / len(l)` (`mean_x`, `mean_y` in the code). -/
noncomputable def listMean (l : List ℝ) : ℝ := l.sum / l.length

/-- `numerator = sum((x[i] - mean_x) * (y[i] - mean_y) for i in range(n))`. -/
noncomputable def pearsonNumerator (pairs : List (ℝ × ℝ)) : ℝ :=
  let mean_x := listMean (pairs.map Prod.fst)
  let mean_y := listMean (pairs.map Prod.snd)
  (pairs.map (fun p => (p.1 - mean_x) * (p.2 - mean_y))).sum

/-- `denom_x = sum((xi - mean_x) ** 2 for xi in x) ** 0.5` (`** 0.5` on a
nonnegative float is the square root). -/
noncomputable def pearsonDenomX (pairs : List (ℝ × ℝ)) : ℝ :=
  Real.sqrt (((pairs.map Prod.fst).map
    (fun xi => (xi - listMean (pairs.map Prod.fst)) ^ 2)).sum)

/-- `denom_y = sum((yi - mean_y) ** 2 for yi in y) ** 0.5`. -/
noncomputable def pearsonDenomY (pairs : List (ℝ × ℝ)) : ℝ :=
  Real.sqrt (((pairs.map Prod.snd).map
    (fun yi => (yi - listMean (pairs.map Prod.snd)) ^ 2)).sum)

open Classical in
/-- Round half to even on the reals (Python's `round` on exact decimals). -/
noncomputable def pyRoundR (x : ℝ) : ℤ :=
  if Int.fract x < 1/2 then ⌊x⌋
  else if 1/2 < Int.fract x then ⌊x⌋ + 1
  else if ⌊x⌋ % 2 = 0 then ⌊x⌋ else ⌊x⌋ + 1

/-- Python's `round(x, 3)`. -/
noncomputable def pyRound3R (x : ℝ) : ℝ := (pyRoundR (x * 1000) : ℝ) / 1000

open Classical in
/-- `pearson_correlation(pairs)`: `None` for fewer than 3 pairs or a zero
denominator factor, otherwise the rounded coefficient. -/
noncomputable def pearson_correlation (pairs : List (ℝ × ℝ)) : Option ℝ :=
  if pairs.length < 3 then none
  else if pearsonDenomX pairs = 0 ∨ pearsonDenomY pairs = 0 then none
  else some (pyRound3R
    (pearsonNumerator pairs / (pearsonDenomX pairs * pearsonDenomY pairs)))

/-- Pairs collected over `ℚ` are fed to the float computation. -/
def castPairs (l : List (ℚ × ℚ)) : List (ℝ × ℝ) :=
  l.map (fun p => ((p.1 : ℝ), (p.2 : ℝ)))

/-- One entry of the correlations output (the fixed `description` string
carries no logic and is omitted). -/
structure CorrelationResult where
  correlation : Option ℝ
  dataPoints : ℕ

/-- The seven named results of `calculate_correlations`. -/
structure Correlations where
  steps_vs_sleep : CorrelationResult
  steps_vs_glucose : CorrelationResult
  sleep_vs_glucose : CorrelationResult
  exercise_vs_glucose : CorrelationResult
  sleep_vs_recovery : CorrelationResult
  hrv_vs_sleep : CorrelationResult
  steps_vs_recovery : CorrelationResult

/-- `calculate_correlations`. -/
noncomputable def calculate_correlations (daily_data : List DailyRecord) :
    Correlations :=
  let p := collectPairs daily_data
  { steps_vs_sleep :=
      ⟨pearson_correlation (castPairs p.steps_sleep), p.steps_sleep.length⟩
    steps_vs_glucose :=
      ⟨pearson_correlation (castPairs p.steps_glucose), p.steps_glucose.length⟩
    sleep_vs_glucose :=
      ⟨pearson_correlation (castPairs p.sleep_glucose), p.sleep_glucose.length⟩
    exercise_vs_glucose :=
      ⟨pearson_correlation (castPairs p.exercise_glucose), p.exercise_glucose.length⟩
    sleep_vs_recovery :=
      ⟨pearson_correlation (castPairs p.sleep_recovery), p.sleep_recovery.length⟩
    hrv_vs_sleep :=
      ⟨pearson_correlation (castPairs p.hrv_sleep), p.hrv_sleep.length⟩
    steps_vs_recovery :=
      ⟨pearson_correlation (castPairs p.steps_recovery), p.steps_recovery.length⟩ }

/-! ### Biomarker Normalizer (`process_biomarkers`) -/

/-- Split a character list at every occurrence of `sep`
(Python's `str.split(sep)`). -/
def splitOnChar (sep : Char) : List Char → List (List Char)
  | [] => [[]]
  | c :: cs =>
      let groups := splitOnChar sep cs
      if c = sep then [] :: groups
      else
        match groups with
        | [] => [[c]]
        | g :: gs => (c :: g) :: gs

/-- Value of a nonempty digit string. -/
def digitsVal (cs : List Char) : ℕ :=
  cs.foldl (fun a c => a * 10 + (c.toNat - '0'.toNat)) 0

/-- Exponent part of a float literal: optional sign then digits. -/
def parseExp? (cs : List Char) : Option ℤ :=
  let p : ℤ × List Char :=
    match cs with
    | '+' :: rest => (1, rest)
    | '-' :: rest => (-1, rest)
    | _ => (1, cs)
  if p.2 ≠ [] ∧ p.2.all Char.isDigit then some (p.1 * digitsVal p.2) else none

/-- Mantissa of a float literal: digits with an optional decimal point,
at least one digit overall. -/
def parseMantissa? (cs : List Char) : Option ℚ :=
  match splitOnChar '.' cs with
  | [intPart] =>
      if intPart ≠ [] ∧ intPart.all Char.isDigit then some (digitsVal intPart : ℚ)
      else none
  | [intPart, fracPart] =>
      if intPart ++ fracPart ≠ [] ∧ intPart.all Char.isDigit ∧ fracPart.all Char.isDigit then
        some ((digitsVal (intPart ++ fracPart) : ℚ) / 10 ^ fracPart.length)
      else none
  | _ => none

/-- Python's `float(s)` on an already-space-stripped string: optional
sign, decimal mantissa, optional exponent; `none` models the `ValueError`
raised on anything else.  (The exotic accepted spellings `inf`/`nan`/digit
underscores never reach this code path and are not modelled.) -/
def parseFloat? (cs : List Char) : Option ℚ :=
  let lowered := cs.map (fun c => if c = 'E' then 'e' else c)
  let p : ℚ × List Char :=
    match lowered with
    | '+' :: rest => (1, rest)
    | '-' :: rest => (-1, rest)
    | _ => (1, lowered)
  match splitOnChar 'e' p.2 with
  | [mant] => (parseMantissa? mant).map (fun m => p.1 * m)
  | [mant, ex] =>
      match parseMantissa? mant, parseExp? ex with
      | some m, some e => some (p.1 * m * 10 ^ e)
      | _, _ => none
  | _ => none

/-- The optimal-range parse of `process_biomarkers`: guarded by the raw
string being truthy and containing `"-"`; spaces stripped; exactly two
segments required.  The `try`/`except: pass` keeps whatever was assigned
before the first `float` call that raises: a failure on the first segment
leaves both bounds `None`, a failure on the second leaves the
already-assigned minimum in place. -/
def parseOptimalRange (optimal_range : String) : Option ℚ × Option ℚ :=
  if optimal_range ≠ "" ∧ optimal_range.data.contains '-' then
    match splitOnChar '-' (optimal_range.data.filter (· ≠ ' ')) with
    | [p0, p1] =>
        match (if p0 = [] then some none else (parseFloat? p0).map some) with
        | none => (none, none)
        | some omin =>
            match (if p1 = [] then some none else (parseFloat? p1).map some) with
            | none => (omin, none)
            | some omax => (omin, omax)
    | _ => (none, none)
  else (none, none)

/-- One measurement of a biomarker (`{date, value, provider}`). -/
structure Measurement where
  date : Option String
  value : Option ℚ
  provider : Option String
deriving DecidableEq

/-- One biomarker of a category.  `measurements` is the API key, `results`
the legacy fallback key. -/
structure Biomarker where
  name : Option String
  unit : Option String
  optimalRange : Option String
  measurements : List Measurement
  results : List Measurement
deriving DecidableEq

/-- One category of the biomarker document. -/
structure BiomarkerCategory where
  name : Option String
  biomarkers : List Biomarker
deriving DecidableEq

/-- The biomarker document `{categories: [...]}`. -/
structure BiomarkerDoc where
  categories : List BiomarkerCategory
deriving DecidableEq

/-- One flat entry of the list returned by `process_biomarkers`. -/
structure BiomarkerResult where
  date : Option String
  category : Option String
  biomarker : Option String
  value : ℚ
  unit : Option String
  optimalRange : String
  optimalMin : Option ℚ
  optimalMax : Option ℚ
  inRange : Option Bool
  provider : Option String
deriving DecidableEq

/-- `process_biomarkers`: flatten the category → biomarker → measurement
hierarchy, parsing each biomarker's optimal range once and flagging each
measurement with a value as in/out of range (`none` when either bound is
unknown); measurements without a value are dropped. -/
def process_biomarkers (biomarkers : BiomarkerDoc) : List BiomarkerResult :=
  biomarkers.categories.flatMap (fun category =>
    category.biomarkers.flatMap (fun biomarker =>
      let optimal_range := biomarker.optimalRange.getD ""
      let bounds := parseOptimalRange optimal_range
      let measurements :=
        if biomarker.measurements ≠ [] then biomarker.measurements else biomarker.results
      measurements.filterMap (fun measurement =>
        match measurement.value with
        | some value =>
            let in_range : Option Bool :=
              match bounds.1, bounds.2 with
              | some omin, some omax => some (decide (omin ≤ value ∧ value ≤ omax))
              | _, _ => none
            some { date := measurement.date
                   category := category.name
                   biomarker := biomarker.name
                   value := value
                   unit := biomarker.unit
                   optimalRange := optimal_range
                   optimalMin := bounds.1
                   optimalMax := bounds.2
                   inRange := in_range
                   provider := measurement.provider }
        | none => none)))

/-! ### Summary Aggregator (`generate_summary_stats`)

The biomarker sub-block of the summary (`totalResults` / `categories` /
`latestDate`) is not the subject of any claim and is not modelled; the
seven metric blocks and the date range are embedded in full. -/

/-- The filter of all summary comprehensions
(`[d[ns].get(k) for d in daily_data if d[ns].get(k)]`): keep a value only
when present and truthy. -/
def truthyQ (v : Option ℚ) : Option ℚ :=
  match v with
  | some x => if x ≠ 0 then some x else none
  | none => none

/-- The summary record, flattened (`steps_average` is the code's
`summary["steps"]["average"]`, and so on). -/
structure SummaryStats where
  dateRange_start : Option String
  dateRange_end : Option String
  dateRange_totalDays : ℕ
  steps_average : Option ℤ
  steps_min : Option ℚ
  steps_max : Option ℚ
  steps_daysWithData : ℕ
  sleep_averageHours : Option ℚ
  sleep_minHours : Option ℚ
  sleep_maxHours : Option ℚ
  sleep_daysWithData : ℕ
  hrv_averageMs : Option ℚ
  hrv_minMs : Option ℚ
  hrv_maxMs : Option ℚ
  hrv_daysWithData : ℕ
  recovery_average : Option ℚ
  recovery_min : Option ℚ
  recovery_max : Option ℚ
  recovery_daysWithData : ℕ
  restingHeartRate_average : Option ℤ
  restingHeartRate_min : Option ℚ
  restingHeartRate_max : Option ℚ
  restingHeartRate_daysWithData : ℕ
  strain_average : Option ℚ
  strain_min : Option ℚ
  strain_max : Option ℚ
  strain_daysWithData : ℕ
  glucose_averageOfDailyAverages : Option ℚ
  glucose_daysWithData : ℕ

/-- `generate_summary_stats` (metric blocks and date range). -/
def generate_summary_stats (daily_data : List DailyRecord) : SummaryStats :=
  let dates := daily_data.filterMap (fun d => if d.date ≠ "" then some d.date else none)
  let steps := daily_data.filterMap (fun d => truthyQ d.garmin.steps)
  let sleep_hours := daily_data.filterMap (fun d => truthyQ d.whoop.sleepHours)
  let hrv_values := daily_data.filterMap (fun d => truthyQ d.whoop.hrvMs)
  let recovery_scores := daily_data.filterMap (fun d => truthyQ d.whoop.recoveryScore)
  let resting_hr := daily_data.filterMap (fun d => truthyQ d.whoop.restingHeartRate)
  let strain_values := daily_data.filterMap (fun d => truthyQ d.whoop.strain)
  let glucose_avgs := daily_data.filterMap (fun d => truthyQ (d.glucose.map GlucoseDay.average))
  { dateRange_start := dates.min?
    dateRange_end := dates.max?
    dateRange_totalDays := dates.length
    steps_average :=
      if steps ≠ [] then some (pyRound (steps.sum / steps.length)) else none
    steps_min := steps.min?
    steps_max := steps.max?
    steps_daysWithData := steps.length
    sleep_averageHours :=
      if sleep_hours ≠ [] then some (pyRound1 (sleep_hours.sum / sleep_hours.length)) else none
    sleep_minHours := sleep_hours.min?.map pyRound1
    sleep_maxHours := sleep_hours.max?.map pyRound1
    sleep_daysWithData := sleep_hours.length
    hrv_averageMs :=
      if hrv_values ≠ [] then some (pyRound1 (hrv_values.sum / hrv_values.length)) else none
    hrv_minMs := hrv_values.min?.map pyRound1
    hrv_maxMs := hrv_values.max?.map pyRound1
    hrv_daysWithData := hrv_values.length
    recovery_average :=
      if recovery_scores ≠ [] then
        some (pyRound1 (recovery_scores.sum / recovery_scores.length))
      else none
    recovery_min := recovery_scores.min?
    recovery_max := recovery_scores.max?
    recovery_daysWithData := recovery_scores.length
    restingHeartRate_average :=
      if resting_hr ≠ [] then some (pyRound (resting_hr.sum / resting_hr.length)) else none
    restingHeartRate_min := resting_hr.min?
    restingHeartRate_max := resting_hr.max?
    restingHeartRate_daysWithData := resting_hr.length
    strain_average :=
      if strain_values ≠ [] then
        some (pyRound1 (strain_values.sum / strain_values.length))
      else none
    strain_min := strain_values.min?.map pyRound1
    strain_max := strain_values.max?.map pyRound1
    strain_daysWithData := strain_values.length
    glucose_averageOfDailyAverages :=
      if glucose_avgs ≠ [] then
        some (pyRound1 (glucose_avgs.sum / glucose_avgs.length))
      else none
    glucose_daysWithData := glucose_avgs.length }

/-! ### Claims -/

/-- A glucose history whose first reading has a valid timestamp but a
null/missing value (followed by a well-formed reading the same day). -/
def c1FailingDoc : LingoDoc :=
  ⟨[⟨"2024-01-01T00:00:00Z", none⟩, ⟨"2024-01-01T01:00:00Z", some 100⟩]⟩

/-- The same history with the malformed reading removed, as the claimed
skip-silently behaviour would leave it. -/
def c1SkippedDoc : LingoDoc := ⟨[⟨"2024-01-01T01:00:00Z", some 100⟩]⟩

/-- Claim C1 (code bug): a glucose reading with a valid timestamp but a
missing/null value is *not* skipped — `process_lingo_data` appends the
`None` to the day's bucket and the daily-stats `sum` then raises an
uncaught `TypeError`, aborting the source's processing (modelled as
`Except.error ()`), while the claimed behaviour (the remaining reading of
the day still produces correct daily statistics) would give the day entry
computed here for `c1SkippedDoc`. -/
theorem c1_null_value_aborts_processing :
    process_lingo_data c1FailingDoc = Except.error () ∧
    process_lingo_data c1SkippedDoc =
      Except.ok [("2024-01-01", ⟨100, 100, 100, 1, 1, 100⟩)] := by
  refine ⟨rfl, ?_⟩
  have ht : "2024-01-01T01:00:00Z".take 10 = "2024-01-01" := by decide
  norm_num [process_lingo_data, updAppend, glucoseDayStats, allSome, pyRound1, pyRound,
    Int.fract, List.foldlM, ht]

/-- Claim C8 (confirmed): the normalized HRV is the raw value multiplied
by 1000 when the raw value is ≤ 1 and the raw value unchanged when it is
> 1, rounded to 1 decimal place; `45.2 ↦ 45.2` and `0.0452 ↦ 45.2`. -/
theorem c8_hrv_normalization (hrv_raw : ℚ) :
    (hrv_raw ≤ 1 → normalizeHrv hrv_raw = pyRound1 (hrv_raw * 1000)) ∧
    (1 < hrv_raw → normalizeHrv hrv_raw = pyRound1 hrv_raw) ∧
    normalizeHrv (452/10) = 452/10 ∧ normalizeHrv (452/10000) = 452/10 := by
  refine ⟨fun h => ?_, fun h => ?_, ?_, ?_⟩
  · simp [normalizeHrv, not_lt.mpr h]
  · simp [normalizeHrv, h]
  · norm_num [normalizeHrv, pyRound1, pyRound, Int.fract]
  · norm_num [normalizeHrv, pyRound1, pyRound, Int.fract]

/-- Witness for C8 at the concrete raw values `1` (seconds-scale branch)
and `2` (milliseconds-scale branch). -/
theorem c8_hrv_normalization_witness :
    ((1:ℚ) ≤ 1 ∧ normalizeHrv 1 = pyRound1 (1 * 1000)) ∧
    ((1:ℚ) < 2 ∧ normalizeHrv 2 = pyRound1 2) :=
  ⟨⟨by decide, (c8_hrv_normalization 1).1 (by decide)⟩,
   ⟨by decide, (c8_hrv_normalization 2).2.1 (by decide)⟩⟩

/-- Claim C9, amended: the range parse is total (never raises) and on
failure yields null bounds, *except* that when only the second segment
fails to parse, the already-assigned minimum is kept; `inRange` is null
exactly when either bound is null, and is the membership test when both
bounds are known.  `"70-99" ↦ (70, 99)`, `"invalid" ↦ (null, null)`,
`"70-abc" ↦ (70, null)`. -/
theorem c9_biomarker_range_parse :
    (∀ biomarkers : BiomarkerDoc, ∀ entry ∈ process_biomarkers biomarkers,
      (entry.optimalMin, entry.optimalMax) = parseOptimalRange entry.optimalRange ∧
      (entry.inRange = none ↔ entry.optimalMin = none ∨ entry.optimalMax = none) ∧
      (∀ omin omax, entry.optimalMin = some omin → entry.optimalMax = some omax →
        entry.inRange = some (decide (omin ≤ entry.value ∧ entry.value ≤ omax)))) ∧
    parseOptimalRange "70-99" = (some 70, some 99) ∧
    parseOptimalRange "invalid" = (none, none) ∧
    parseOptimalRange "70-abc" = (some 70, none) := by
  refine ⟨?_, ?_, by decide, ?_⟩
  · intro biomarkers entry hentry
    simp only [process_biomarkers, List.mem_flatMap, List.mem_filterMap] at hentry
    obtain ⟨category, -, biomarker, -, measurement, -, heq⟩ := hentry
    rcases hv : measurement.value with - | value
    · rw [hv] at heq; exact absurd heq (by simp)
    · rw [hv] at heq
      simp only [Option.some.injEq] at heq
      subst heq
      rcases hb : parseOptimalRange (biomarker.optimalRange.getD "") with ⟨bmin, bmax⟩
      rcases bmin with - | omin <;> rcases bmax with - | omax <;>
        simp [hb, Prod.ext_iff]
  · have h1 : splitOnChar '-' ['7', '0', '-', '9', '9'] = [['7', '0'], ['9', '9']] := by
      decide
    have h2 : splitOnChar 'e' ['7', '0'] = [['7', '0']] := by decide
    have h3 : splitOnChar '.' ['7', '0'] = [['7', '0']] := by decide
    have h4 : splitOnChar 'e' ['9', '9'] = [['9', '9']] := by decide
    have h5 : splitOnChar '.' ['9', '9'] = [['9', '9']] := by decide
    simp [parseOptimalRange, parseFloat?, parseMantissa?, h1, h2, h3, h4, h5, digitsVal]
  · have h1 : splitOnChar '-' ['7', '0', '-', 'a', 'b', 'c'] = [['7', '0'], ['a', 'b', 'c']] := by
      decide
    have h2 : splitOnChar 'e' ['7', '0'] = [['7', '0']] := by decide
    have h3 : splitOnChar '.' ['7', '0'] = [['7', '0']] := by decide
    have h4 : splitOnChar 'e' ['a', 'b', 'c'] = [['a', 'b', 'c']] := by decide
    have h5 : splitOnChar '.' ['a', 'b', 'c'] = [['a', 'b', 'c']] := by decide
    simp [parseOptimalRange, parseFloat?, parseMantissa?, h1, h2, h3, h4, h5, digitsVal]

/-- A biomarker document whose only biomarker has the malformed optimal
range `"70-abc"` (numeric minimum, non-numeric maximum) and one
measurement with value 80. -/
def c9Doc : BiomarkerDoc :=
  ⟨[⟨some "Metabolic",
     [⟨some "Glucose", some "mg/dL", some "70-abc",
       [⟨some "2024-01-01", some 80, none⟩], []⟩]⟩]⟩

/-- Counterexample to C9 as stated: on the parse failure of `"70-abc"`
(non-numeric second part) the produced entry keeps `optimalMin = 70` —
the bounds are *not* both null. -/
theorem c9_counterexample :
    (process_biomarkers c9Doc).map
        (fun e => (e.optimalMin, e.optimalMax, e.inRange)) =
      [(some 70, none, none)] ∧ some (70:ℚ) ≠ (none : Option ℚ) := by
  have h := c9_biomarker_range_parse.2.2.2
  refine ⟨?_, by simp⟩
  simp [process_biomarkers, c9Doc, h]

/-- The document used by the C9 witness: no optimal range at all. -/
def c9WitnessDoc : BiomarkerDoc :=
  ⟨[⟨none, [⟨none, none, none, [⟨none, some 80, none⟩], []⟩]⟩]⟩

/-- The single entry `process_biomarkers` produces from `c9WitnessDoc`. -/
def c9WitnessEntry : BiomarkerResult :=
  ⟨none, none, none, 80, none, "", none, none, none, none⟩

/-- Witness for C9's amended theorem at a concrete document and entry. -/
theorem c9_biomarker_range_parse_witness :
    (c9WitnessEntry.optimalMin, c9WitnessEntry.optimalMax) =
      parseOptimalRange c9WitnessEntry.optimalRange :=
  (c9_biomarker_range_parse.1 c9WitnessDoc c9WitnessEntry (by decide)).1

/-! Lookup lemmas for the per-date accumulator of `process_whoop_data`. -/

theorem lookup_updDay_self (l : List (String × WhoopDay)) (date : String)
    (f : WhoopDay → WhoopDay) :
    (updDay l date f).lookup date = some (f ((l.lookup date).getD ∅)) := by
  induction l with
  | nil => simp [updDay, List.lookup]
  | cons p rest ih =>
      by_cases h : p.1 = date
      · simp [updDay, h, List.lookup]
      · have hb : (date == p.1) = false :=
          beq_eq_false_iff_ne.mpr (fun he => h he.symm)
        simp [updDay, h, List.lookup, hb, ih]

theorem lookup_updDay_ne (l : List (String × WhoopDay)) (date d : String)
    (f : WhoopDay → WhoopDay) (h : d ≠ date) :
    (updDay l date f).lookup d = l.lookup d := by
  have hb : (d == date) = false := beq_eq_false_iff_ne.mpr h
  induction l with
  | nil => simp [updDay, List.lookup, hb]
  | cons p rest ih =>
      by_cases hp : p.1 = date
      · subst hp
        simp [updDay, List.lookup, hb]
      · simp [updDay, hp, List.lookup, ih]

/-- Looking up a date after one stream's fold: the date's day record is
the fold of the stream's score objects landing on that date over whatever
the accumulator held for that date before (default: the empty day). -/
theorem lookup_processStream {σ : Type} (apply : WhoopDay → σ → WhoopDay)
    (records : List (WhoopRecord σ)) (daily : List (String × WhoopDay))
    (date : String) :
    (processStream apply records daily).lookup date =
      match streamScores records date with
      | [] => daily.lookup date
      | s :: ss =>
          some ((s :: ss).foldl apply ((daily.lookup date).getD ∅)) := by
  induction records generalizing daily with
  | nil => simp [processStream, streamScores]
  | cons r rs ih =>
      have hstep : processStream apply (r :: rs) daily =
          processStream apply rs
            (if r.created_at ≠ "" then
              match r.score with
              | some score =>
                  updDay daily (r.created_at.take 10) (fun day => apply day score)
              | none => daily
            else daily) := rfl
      by_cases hca : r.created_at ≠ ""
      · rcases hsc : r.score with - | s
        · have hs : streamScores (r :: rs) date = streamScores rs date := by
            simp [streamScores, List.filterMap_cons, hsc, ite_self]
          rw [hstep, hs, if_pos hca]
          simp only [hsc]
          exact ih daily
        · by_cases hdate : r.created_at.take 10 = date
          · have hs : streamScores (r :: rs) date = s :: streamScores rs date := by
              simp [streamScores, List.filterMap_cons, hsc, hca, hdate]
            rw [hstep, hs, if_pos hca]
            simp only [hsc]
            rw [hdate, ih]
            rcases hrs : streamScores rs date with - | ⟨t, ts⟩
            · simp [lookup_updDay_self]
            · simp [lookup_updDay_self, List.foldl_cons]
          · have hs : streamScores (r :: rs) date = streamScores rs date := by
              simp [streamScores, List.filterMap_cons, hsc, hca, hdate]
            rw [hstep, hs, if_pos hca]
            simp only [hsc]
            rw [ih, lookup_updDay_ne _ _ _ _ (Ne.symm hdate)]
      · have hs : streamScores (r :: rs) date = streamScores rs date := by
          simp [streamScores, List.filterMap_cons, hca]
        rw [hstep, hs, if_neg hca]
        exact ih daily

theorem strain_applyRecovery (day : WhoopDay) (s : RecoveryScore) :
    (applyRecovery day s).strain = day.strain := rfl

theorem strain_applySleep (day : WhoopDay) (s : SleepScore) :
    (applySleep day s).strain = day.strain := by
  simp only [applySleep]
  split <;> rfl

theorem strain_foldl_applyRecovery (ss : List RecoveryScore) (day : WhoopDay) :
    (ss.foldl applyRecovery day).strain = day.strain := by
  induction ss generalizing day with
  | nil => rfl
  | cons s ss ih => rw [List.foldl_cons, ih, strain_applyRecovery]

theorem strain_foldl_applySleep (ss : List SleepScore) (day : WhoopDay) :
    (ss.foldl applySleep day).strain = day.strain := by
  induction ss generalizing day with
  | nil => rfl
  | cons s ss ih => rw [List.foldl_cons, ih, strain_applySleep]

theorem strain_empty : (∅ : WhoopDay).strain = none := rfl

/-- No day record ever carries a strain key before the workout stream is
folded in: neither the recovery loop nor the sleep loop writes it. -/
theorem strain_none_before_workout (whoop : WhoopDoc) (date : String)
    (day : WhoopDay)
    (h : (processStream applySleep whoop.sleep
        (processStream applyRecovery whoop.recovery [])).lookup date =
      some day) :
    day.strain = none := by
  rw [lookup_processStream] at h
  have hrec : ∀ d : WhoopDay,
      (processStream applyRecovery whoop.recovery []).lookup date = some d →
      d.strain = none := by
    intro d hd
    rw [lookup_processStream] at hd
    rcases hs : streamScores whoop.recovery date with - | ⟨t, ts⟩
    · rw [hs] at hd
      simp [List.lookup] at hd
    · rw [hs] at hd
      simp only [Option.some.injEq] at hd
      rw [← hd, strain_foldl_applyRecovery]
      simp [List.lookup, strain_empty]
  rcases hs : streamScores whoop.sleep date with - | ⟨t, ts⟩
  · rw [hs] at h
    exact hrec day h
  · rw [hs] at h
    simp only [Option.some.injEq] at h
    rw [← h, strain_foldl_applySleep]
    rcases hl : (processStream applyRecovery whoop.recovery []).lookup date with - | d
    · simp [hl, strain_empty]
    · simp [hl, hrec d hl]

/-- Strain of a nonempty workout fold: the running `max` over the
per-event strains, seeded with the day's previous strain read as 0. -/
theorem strain_foldl_applyWorkout (s : WorkoutScore) (ss : List WorkoutScore)
    (day : WhoopDay) :
    ((s :: ss).foldl applyWorkout day).strain =
      some (((s :: ss).map (fun t => t.strain.getD 0)).foldl max
        (day.strain.getD 0)) := by
  induction ss generalizing s day with
  | nil => simp [applyWorkout]
  | cons t ts ih =>
      rw [List.foldl_cons, ih]
      simp [applyWorkout]

/-- Two same-day workout events with strains 5.0 and 8.3. -/
def c7ExampleDoc : WhoopDoc :=
  ⟨[], [],
   [⟨"2024-01-03T08:00:00Z", some ⟨some 5⟩⟩,
    ⟨"2024-01-03T18:00:00Z", some ⟨some (83/10)⟩⟩]⟩

/-- General characterisation of a date's merged strain: absent when the
date has no workout event with a score, otherwise the fold of `max` over
the per-event strains (missing per-event strain read as 0), seeded with
the `0` default of `daily[date]["whoop"].get("strain", 0)`. -/
theorem strain_lookup_general (whoop : WhoopDoc) (date : String) :
    ((process_whoop_data whoop).lookup date).bind WhoopDay.strain =
      match workoutStrains whoop date with
      | [] => none
      | v :: vs => some ((v :: vs).foldl max 0) := by
  unfold process_whoop_data
  rw [lookup_processStream]
  rcases hws : streamScores whoop.workout date with - | ⟨s, ss⟩
  · have hw : workoutStrains whoop date = [] := by simp [workoutStrains, hws]
    rw [hw]
    rcases hl : (processStream applySleep whoop.sleep
        (processStream applyRecovery whoop.recovery [])).lookup date with - | day
    · simp
    · simp [strain_none_before_workout whoop date day hl]
  · have hw : workoutStrains whoop date =
        s.strain.getD 0 :: ss.map (fun t => t.strain.getD 0) := by
      simp [workoutStrains, hws]
    rw [hw]
    have hb : (((processStream applySleep whoop.sleep
        (processStream applyRecovery whoop.recovery [])).lookup date).getD
          ∅).strain = none := by
      rcases hl : (processStream applySleep whoop.sleep
          (processStream applyRecovery whoop.recovery [])).lookup date with - | day
      · simp [strain_empty]
      · simp [strain_none_before_workout whoop date day hl]
    simp only [Option.bind_some, Option.some_bind]
    rw [strain_foldl_applyWorkout]
    rw [hb]
    simp

/-- Claim C7, amended: when multiple workout records with score objects
fall on the same date, the merged daily strain equals the maximum of `0`
and the per-event strain values (missing per-event strain treated as 0) —
a `max`, never a sum; same-day strains 5.0 and 8.3 yield 8.3. -/
theorem c7_strain_daily_max :
    (∀ (whoop : WhoopDoc) (date : String) (v w : ℚ) (vs : List ℚ),
      workoutStrains whoop date = v :: w :: vs →
      ((process_whoop_data whoop).lookup date).bind WhoopDay.strain =
        some ((v :: w :: vs).foldl max 0)) ∧
    ((process_whoop_data c7ExampleDoc).lookup "2024-01-03").bind WhoopDay.strain =
      some (83/10) := by
  constructor
  · intro whoop date v w vs h
    rw [strain_lookup_general, h]
  · rw [strain_lookup_general]
    have h1 : ("2024-01-03T08:00:00Z").take 10 = "2024-01-03" := by decide
    have h2 : ("2024-01-03T18:00:00Z").take 10 = "2024-01-03" := by decide
    have hw : workoutStrains c7ExampleDoc "2024-01-03" = [5, 83/10] := by
      simp [workoutStrains, streamScores, c7ExampleDoc, List.filterMap_cons, h1, h2]
    rw [hw]
    norm_num [List.foldl, max_def]

/-- Witness for C7's amended theorem at the two-event example document. -/
theorem c7_strain_daily_max_witness :
    ((process_whoop_data c7ExampleDoc).lookup "2024-01-03").bind WhoopDay.strain =
      some (([(5 : ℚ), 83/10]).foldl max 0) :=
  c7_strain_daily_max.1 c7ExampleDoc "2024-01-03" 5 (83/10) [] (by rfl)

/-- Two same-day workout events whose strains are both negative. -/
def c7Doc : WhoopDoc :=
  ⟨[], [],
   [⟨"2024-01-01T10:00:00Z", some ⟨some (-1)⟩⟩,
    ⟨"2024-01-01T20:00:00Z", some ⟨some (-2)⟩⟩]⟩

/-- Counterexample to C7 as stated: multiple (two) workout records fall
on the same date with strains `-1` and `-2`; the maximum of the per-event
strain values is `-1`, but the merged strain is `0` (the running `max` is
seeded with the `0` default). -/
theorem c7_counterexample :
    ((process_whoop_data c7Doc).lookup "2024-01-01").bind WhoopDay.strain = some 0 ∧
    (workoutStrains c7Doc "2024-01-01").max? = some (-1) := by
  constructor
  · decide
  · decide

/-- Claim C2 (confirmed): the merged sequence's dates are strictly
increasing (hence each date appears exactly once), are exactly the union
of the three key sets, and every record carries all three namespaces —
each equal to the source mapping's sub-record for that date, or to the
empty object when the date is absent from that source. -/
theorem c2_merge_daily_data (garmin_daily : List (String × GarminDay))
    (glucose_daily : List (String × GlucoseDay))
    (whoop_daily : List (String × WhoopDay)) :
    List.Sorted (· < ·)
        ((merge_daily_data garmin_daily glucose_daily whoop_daily).map
          DailyRecord.date) ∧
    (∀ date : String,
      date ∈ (merge_daily_data garmin_daily glucose_daily whoop_daily).map
          DailyRecord.date ↔
        date ∈ garmin_daily.map Prod.fst ∨ date ∈ glucose_daily.map Prod.fst ∨
          date ∈ whoop_daily.map Prod.fst) ∧
    (∀ record ∈ merge_daily_data garmin_daily glucose_daily whoop_daily,
      record.garmin = (garmin_daily.lookup record.date).getD ∅ ∧
      record.whoop = (whoop_daily.lookup record.date).getD ∅ ∧
      record.glucose = glucose_daily.lookup record.date) := by
  have hmap :
      (merge_daily_data garmin_daily glucose_daily whoop_daily).map
          DailyRecord.date =
        (all_dates garmin_daily glucose_daily whoop_daily).sort (· ≤ ·) := by
    simp [merge_daily_data, List.map_map, Function.comp_def]
  refine ⟨?_, ?_, ?_⟩
  · rw [hmap]
    exact Finset.sort_sorted_lt _
  · intro date
    rw [hmap, Finset.mem_sort]
    simp [all_dates, or_assoc]
  · intro record hrecord
    simp only [merge_daily_data, List.mem_map] at hrecord
    obtain ⟨date, -, rfl⟩ := hrecord
    exact ⟨rfl, rfl, rfl⟩

/-- Witness for C2 at a one-date tracker mapping and empty other sources. -/
theorem c2_merge_daily_data_witness :
    ({date := "2024-01-01", garmin := ∅, whoop := ∅, glucose := none} :
        DailyRecord).garmin =
      (([("2024-01-01", (∅ : GarminDay))]).lookup "2024-01-01").getD ∅ ∧
    ({date := "2024-01-01", garmin := ∅, whoop := ∅, glucose := none} :
        DailyRecord).whoop =
      (([] : List (String × WhoopDay)).lookup "2024-01-01").getD ∅ ∧
    ({date := "2024-01-01", garmin := ∅, whoop := ∅, glucose := none} :
        DailyRecord).glucose =
      ([] : List (String × GlucoseDay)).lookup "2024-01-01" :=
  (c2_merge_daily_data [("2024-01-01", ∅)] [] []).2.2 _ (by
    have h : merge_daily_data [("2024-01-01", ∅)] [] [] =
        [{date := "2024-01-01", garmin := ∅, whoop := ∅, glucose := none}] := by
      simp [merge_daily_data, all_dates, List.lookup]
    rw [h]
    exact List.mem_singleton.mpr rfl)

theorem length_filterMap_eq_countP {α β : Type} (g : α → Option β) (l : List α) :
    (l.filterMap g).length = l.countP (fun a => (g a).isSome) := by
  induction l with
  | nil => rfl
  | cons a l ih =>
      rcases h : g a with - | b <;>
        simp [List.filterMap_cons, h, List.countP_cons, ih]

theorem truthyQ_isSome (v : Option ℚ) :
    (truthyQ v).isSome = decide (v.getD 0 ≠ 0) := by
  rcases v with - | x
  · simp [truthyQ]
  · by_cases hx : x = 0 <;> simp [truthyQ, hx]

theorem countP_truthy (f : DailyRecord → Option ℚ) (l : List DailyRecord) :
    (l.filterMap (fun d => truthyQ (f d))).length =
      l.countP (fun d => decide ((f d).getD 0 ≠ 0)) := by
  rw [length_filterMap_eq_countP]
  exact List.countP_congr (fun d _ => by rw [truthyQ_isSome (f d)])

/-- Claim C6, amended: each metric's `daysWithData` counts the records
where the metric is present *with a nonzero (truthy) value*; mean, min and
max are computed over exactly those records' values (steps and resting
heart rate means rounded to the nearest integer, sleep/HRV/strain rounded
to 1 decimal — their min/max as well — recovery and the two integer-mean
metrics' min/max unrounded), and the glucose block reports only the mean
of daily means (no min/max). -/
theorem c6_summary_stats (daily_data : List DailyRecord) :
    ((generate_summary_stats daily_data).steps_daysWithData =
        daily_data.countP (fun d => decide (d.garmin.steps.getD 0 ≠ 0)) ∧
      (generate_summary_stats daily_data).steps_average =
        (if daily_data.filterMap (fun d => truthyQ d.garmin.steps) ≠ [] then
          some (pyRound ((daily_data.filterMap (fun d => truthyQ d.garmin.steps)).sum /
            (daily_data.filterMap (fun d => truthyQ d.garmin.steps)).length))
        else none) ∧
      (generate_summary_stats daily_data).steps_min =
        (daily_data.filterMap (fun d => truthyQ d.garmin.steps)).min? ∧
      (generate_summary_stats daily_data).steps_max =
        (daily_data.filterMap (fun d => truthyQ d.garmin.steps)).max?) ∧
    ((generate_summary_stats daily_data).sleep_daysWithData =
        daily_data.countP (fun d => decide (d.whoop.sleepHours.getD 0 ≠ 0)) ∧
      (generate_summary_stats daily_data).sleep_averageHours =
        (if daily_data.filterMap (fun d => truthyQ d.whoop.sleepHours) ≠ [] then
          some (pyRound1 ((daily_data.filterMap (fun d => truthyQ d.whoop.sleepHours)).sum /
            (daily_data.filterMap (fun d => truthyQ d.whoop.sleepHours)).length))
        else none) ∧
      (generate_summary_stats daily_data).sleep_minHours =
        (daily_data.filterMap (fun d => truthyQ d.whoop.sleepHours)).min?.map pyRound1 ∧
      (generate_summary_stats daily_data).sleep_maxHours =
        (daily_data.filterMap (fun d => truthyQ d.whoop.sleepHours)).max?.map pyRound1) ∧
    ((generate_summary_stats daily_data).hrv_daysWithData =
        daily_data.countP (fun d => decide (d.whoop.hrvMs.getD 0 ≠ 0)) ∧
      (generate_summary_stats daily_data).hrv_averageMs =
        (if daily_data.filterMap (fun d => truthyQ d.whoop.hrvMs) ≠ [] then
          some (pyRound1 ((daily_data.filterMap (fun d => truthyQ d.whoop.hrvMs)).sum /
            (daily_data.filterMap (fun d => truthyQ d.whoop.hrvMs)).length))
        else none) ∧
      (generate_summary_stats daily_data).hrv_minMs =
        (daily_data.filterMap (fun d => truthyQ d.whoop.hrvMs)).min?.map pyRound1 ∧
      (generate_summary_stats daily_data).hrv_maxMs =
        (daily_data.filterMap (fun d => truthyQ d.whoop.hrvMs)).max?.map pyRound1) ∧
    ((generate_summary_stats daily_data).recovery_daysWithData =
        daily_data.countP (fun d => decide (d.whoop.recoveryScore.getD 0 ≠ 0)) ∧
      (generate_summary_stats daily_data).recovery_average =
        (if daily_data.filterMap (fun d => truthyQ d.whoop.recoveryScore) ≠ [] then
          some (pyRound1
            ((daily_data.filterMap (fun d => truthyQ d.whoop.recoveryScore)).sum /
              (daily_data.filterMap (fun d => truthyQ d.whoop.recoveryScore)).length))
        else none) ∧
      (generate_summary_stats daily_data).recovery_min =
        (daily_data.filterMap (fun d => truthyQ d.whoop.recoveryScore)).min? ∧
      (generate_summary_stats daily_data).recovery_max =
        (daily_data.filterMap (fun d => truthyQ d.whoop.recoveryScore)).max?) ∧
    ((generate_summary_stats daily_data).restingHeartRate_daysWithData =
        daily_data.countP (fun d => decide (d.whoop.restingHeartRate.getD 0 ≠ 0)) ∧
      (generate_summary_stats daily_data).restingHeartRate_average =
        (if daily_data.filterMap (fun d => truthyQ d.whoop.restingHeartRate) ≠ [] then
          some (pyRound
            ((daily_data.filterMap (fun d => truthyQ d.whoop.restingHeartRate)).sum /
              (daily_data.filterMap (fun d => truthyQ d.whoop.restingHeartRate)).length))
        else none) ∧
      (generate_summary_stats daily_data).restingHeartRate_min =
        (daily_data.filterMap (fun d => truthyQ d.whoop.restingHeartRate)).min? ∧
      (generate_summary_stats daily_data).restingHeartRate_max =
        (daily_data.filterMap (fun d => truthyQ d.whoop.restingHeartRate)).max?) ∧
    ((generate_summary_stats daily_data).strain_daysWithData =
        daily_data.countP (fun d => decide (d.whoop.strain.getD 0 ≠ 0)) ∧
      (generate_summary_stats daily_data).strain_average =
        (if daily_data.filterMap (fun d => truthyQ d.whoop.strain) ≠ [] then
          some (pyRound1 ((daily_data.filterMap (fun d => truthyQ d.whoop.strain)).sum /
            (daily_data.filterMap (fun d => truthyQ d.whoop.strain)).length))
        else none) ∧
      (generate_summary_stats daily_data).strain_min =
        (daily_data.filterMap (fun d => truthyQ d.whoop.strain)).min?.map pyRound1 ∧
      (generate_summary_stats daily_data).strain_max =
        (daily_data.filterMap (fun d => truthyQ d.whoop.strain)).max?.map pyRound1) ∧
    ((generate_summary_stats daily_data).glucose_daysWithData =
        daily_data.countP
          (fun d => decide ((d.glucose.map GlucoseDay.average).getD 0 ≠ 0)) ∧
      (generate_summary_stats daily_data).glucose_averageOfDailyAverages =
        (if daily_data.filterMap (fun d => truthyQ (d.glucose.map GlucoseDay.average)) ≠ [] then
          some (pyRound1
            ((daily_data.filterMap
              (fun d => truthyQ (d.glucose.map GlucoseDay.average))).sum /
              (daily_data.filterMap
                (fun d => truthyQ (d.glucose.map GlucoseDay.average))).length))
        else none)) := by
  refine ⟨⟨?_, rfl, rfl, rfl⟩, ⟨?_, rfl, rfl, rfl⟩, ⟨?_, rfl, rfl, rfl⟩,
    ⟨?_, rfl, rfl, rfl⟩, ⟨?_, rfl, rfl, rfl⟩, ⟨?_, rfl, rfl, rfl⟩, ⟨?_, rfl⟩⟩
  · exact countP_truthy (fun d => d.garmin.steps) daily_data
  · exact countP_truthy (fun d => d.whoop.sleepHours) daily_data
  · exact countP_truthy (fun d => d.whoop.hrvMs) daily_data
  · exact countP_truthy (fun d => d.whoop.recoveryScore) daily_data
  · exact countP_truthy (fun d => d.whoop.restingHeartRate) daily_data
  · exact countP_truthy (fun d => d.whoop.strain) daily_data
  · exact countP_truthy (fun d => d.glucose.map GlucoseDay.average) daily_data

/-- A single record whose strain is present with the value 0. -/
def c6Daily : List DailyRecord := [⟨"2024-01-01", ∅, { strain := some 0 }, none⟩]

/-- Counterexample to C6 as stated: the strain metric is present in the
one record of `c6Daily`, so a count of days with the metric *present*
would be 1, but the summary's `daysWithData` is 0 (the truthiness filter
drops the value 0). -/
theorem c6_counterexample :
    (generate_summary_stats c6Daily).strain_daysWithData = 0 ∧
    c6Daily.countP (fun r => r.whoop.strain.isSome) = 1 := by
  exact ⟨by decide, by decide⟩

/-- The pair-collection fold, characterised list by list. -/
theorem collectPairs_go (daily_data : List DailyRecord) (acc : PairLists) :
    daily_data.foldl collectRecord acc =
      ⟨acc.steps_sleep ++
        daily_data.filterMap (fun r => truthyPair r.garmin.steps r.whoop.sleepHours),
       acc.steps_glucose ++
        daily_data.filterMap
          (fun r => truthyPair r.garmin.steps (r.glucose.map GlucoseDay.average)),
       acc.sleep_glucose ++
        daily_data.filterMap
          (fun r => truthyPair r.whoop.sleepHours (r.glucose.map GlucoseDay.average)),
       acc.exercise_glucose ++
        daily_data.filterMap (fun r =>
          (truthyPair r.garmin.totalActivityDuration
            (r.glucose.map GlucoseDay.average)).map (fun p => (p.1 / 60, p.2))),
       acc.sleep_recovery ++
        daily_data.filterMap
          (fun r => truthyPair r.whoop.sleepHours r.whoop.recoveryScore),
       acc.hrv_sleep ++
        daily_data.filterMap (fun r => truthyPair r.whoop.hrvMs r.whoop.sleepHours),
       acc.steps_recovery ++
        daily_data.filterMap
          (fun r => truthyPair r.garmin.steps r.whoop.recoveryScore)⟩ := by
  induction daily_data generalizing acc with
  | nil => simp
  | cons r rs ih =>
      rw [List.foldl_cons, ih]
      simp only [collectRecord, PairLists.mk.injEq]
      refine ⟨?_, ?_, ?_, ?_, ?_, ?_, ?_⟩
      · rcases h : truthyPair r.garmin.steps r.whoop.sleepHours with - | p <;>
          simp [List.filterMap_cons, h]
      · rcases h : truthyPair r.garmin.steps (r.glucose.map GlucoseDay.average)
            with - | p <;>
          simp [List.filterMap_cons, h]
      · rcases h : truthyPair r.whoop.sleepHours (r.glucose.map GlucoseDay.average)
            with - | p <;>
          simp [List.filterMap_cons, h]
      · rcases h : truthyPair r.garmin.totalActivityDuration
            (r.glucose.map GlucoseDay.average) with - | p <;>
          simp [List.filterMap_cons, h]
      · rcases h : truthyPair r.whoop.sleepHours r.whoop.recoveryScore with - | p <;>
          simp [List.filterMap_cons, h]
      · rcases h : truthyPair r.whoop.hrvMs r.whoop.sleepHours with - | p <;>
          simp [List.filterMap_cons, h]
      · rcases h : truthyPair r.garmin.steps r.whoop.recoveryScore with - | p <;>
          simp [List.filterMap_cons, h]

/-- Claim C5 (confirmed): each of the seven collected pair lists holds
exactly the (x, y) values of the records where both variables are present
and truthy (an exact 0 excluded), with the activity duration divided by 60
before pairing, and each reported `dataPoints` is the length of its list. -/
theorem c5_collected_pairs (daily_data : List DailyRecord) :
    (collectPairs daily_data).steps_sleep =
        daily_data.filterMap
          (fun r => truthyPair r.garmin.steps r.whoop.sleepHours) ∧
    (collectPairs daily_data).steps_glucose =
        daily_data.filterMap
          (fun r => truthyPair r.garmin.steps (r.glucose.map GlucoseDay.average)) ∧
    (collectPairs daily_data).sleep_glucose =
        daily_data.filterMap
          (fun r => truthyPair r.whoop.sleepHours (r.glucose.map GlucoseDay.average)) ∧
    (collectPairs daily_data).exercise_glucose =
        daily_data.filterMap (fun r =>
          (truthyPair r.garmin.totalActivityDuration
            (r.glucose.map GlucoseDay.average)).map (fun p => (p.1 / 60, p.2))) ∧
    (collectPairs daily_data).sleep_recovery =
        daily_data.filterMap
          (fun r => truthyPair r.whoop.sleepHours r.whoop.recoveryScore) ∧
    (collectPairs daily_data).hrv_sleep =
        daily_data.filterMap
          (fun r => truthyPair r.whoop.hrvMs r.whoop.sleepHours) ∧
    (collectPairs daily_data).steps_recovery =
        daily_data.filterMap
          (fun r => truthyPair r.garmin.steps r.whoop.recoveryScore) ∧
    (calculate_correlations daily_data).steps_vs_sleep.dataPoints =
        (collectPairs daily_data).steps_sleep.length ∧
    (calculate_correlations daily_data).steps_vs_glucose.dataPoints =
        (collectPairs daily_data).steps_glucose.length ∧
    (calculate_correlations daily_data).sleep_vs_glucose.dataPoints =
        (collectPairs daily_data).sleep_glucose.length ∧
    (calculate_correlations daily_data).exercise_vs_glucose.dataPoints =
        (collectPairs daily_data).exercise_glucose.length ∧
    (calculate_correlations daily_data).sleep_vs_recovery.dataPoints =
        (collectPairs daily_data).sleep_recovery.length ∧
    (calculate_correlations daily_data).hrv_vs_sleep.dataPoints =
        (collectPairs daily_data).hrv_sleep.length ∧
    (calculate_correlations daily_data).steps_vs_recovery.dataPoints =
        (collectPairs daily_data).steps_recovery.length := by
  have h := collectPairs_go daily_data ⟨[], [], [], [], [], [], []⟩
  refine ⟨?_, ?_, ?_, ?_, ?_, ?_, ?_, rfl, rfl, rfl, rfl, rfl, rfl, rfl⟩ <;>
    · unfold collectPairs
      rw [h]
      simp

/-- Claim C3 (confirmed): `pearson_correlation` returns null for fewer
than 3 pairs, returns null (total function — no division error) when
either denominator factor is exactly zero, and otherwise returns the
numerator over the product of the two root factors rounded to 3 decimals;
every reported sample count is the pair count as-is. -/
theorem c3_pearson_definition :
    (∀ pairs : List (ℝ × ℝ),
      (pairs.length < 3 → pearson_correlation pairs = none) ∧
      (pearsonDenomX pairs = 0 ∨ pearsonDenomY pairs = 0 →
        pearson_correlation pairs = none) ∧
      (¬pairs.length < 3 → pearsonDenomX pairs ≠ 0 → pearsonDenomY pairs ≠ 0 →
        pearson_correlation pairs =
          some (pyRound3R (pearsonNumerator pairs /
            (pearsonDenomX pairs * pearsonDenomY pairs))))) ∧
    (∀ daily_data : List DailyRecord,
      (calculate_correlations daily_data).steps_vs_sleep.dataPoints =
          (collectPairs daily_data).steps_sleep.length ∧
      (calculate_correlations daily_data).steps_vs_glucose.dataPoints =
          (collectPairs daily_data).steps_glucose.length ∧
      (calculate_correlations daily_data).sleep_vs_glucose.dataPoints =
          (collectPairs daily_data).sleep_glucose.length ∧
      (calculate_correlations daily_data).exercise_vs_glucose.dataPoints =
          (collectPairs daily_data).exercise_glucose.length ∧
      (calculate_correlations daily_data).sleep_vs_recovery.dataPoints =
          (collectPairs daily_data).sleep_recovery.length ∧
      (calculate_correlations daily_data).hrv_vs_sleep.dataPoints =
          (collectPairs daily_data).hrv_sleep.length ∧
      (calculate_correlations daily_data).steps_vs_recovery.dataPoints =
          (collectPairs daily_data).steps_recovery.length) := by
  refine ⟨fun pairs => ⟨fun h => ?_, fun h => ?_, fun h1 h2 h3 => ?_⟩,
    fun daily_data => ⟨rfl, rfl, rfl, rfl, rfl, rfl, rfl⟩⟩
  · simp [pearson_correlation, h]
  · by_cases hl : pairs.length < 3 <;> simp [pearson_correlation, hl, h]
  · simp [pearson_correlation, h1, h2, h3]

/-- Witness for C3 on a concrete two-pair list. -/
theorem c3_pearson_definition_witness :
    pearson_correlation [((1:ℝ), (1:ℝ)), (2, 2)] = none :=
  (c3_pearson_definition.1 [((1:ℝ), (1:ℝ)), (2, 2)]).1 (by decide)

/-- Claim C10 (confirmed): replacing every pair (x, y) by (y, x) yields an
identical Pearson result — the same coefficient or the same null. -/
theorem c10_pearson_symmetric (pairs : List (ℝ × ℝ)) :
    pearson_correlation (pairs.map Prod.swap) = pearson_correlation pairs := by
  have hfst : (pairs.map Prod.swap).map Prod.fst = pairs.map Prod.snd := by
    simp [List.map_map, Function.comp_def]
  have hsnd : (pairs.map Prod.swap).map Prod.snd = pairs.map Prod.fst := by
    simp [List.map_map, Function.comp_def]
  have hdx : pearsonDenomX (pairs.map Prod.swap) = pearsonDenomY pairs := by
    unfold pearsonDenomX pearsonDenomY
    rw [hfst]
  have hdy : pearsonDenomY (pairs.map Prod.swap) = pearsonDenomX pairs := by
    unfold pearsonDenomX pearsonDenomY
    rw [hsnd]
  have hnum : pearsonNumerator (pairs.map Prod.swap) = pearsonNumerator pairs := by
    unfold pearsonNumerator
    dsimp only
    rw [hfst, hsnd, List.map_map]
    refine congrArg List.sum (List.map_congr_left fun p _ => ?_)
    simp [mul_comm]
  unfold pearson_correlation
  rw [List.length_map, hdx, hdy, hnum]
  by_cases hl : pairs.length < 3
  · simp [hl]
  · simp only [hl, if_false]
    simp [or_comm, mul_comm]

theorem list_sum_map_fin {α : Type} (l : List α) (f : α → ℝ) :
    (l.map f).sum = ∑ i : Fin l.length, f (l.get i) := by
  rw [← Fin.sum_univ_get' l f]
  rfl

theorem sum_sq_dev_eq_zero_iff (l : List ℝ) (m : ℝ) :
    (l.map (fun x => (x - m) ^ 2)).sum = 0 ↔ ∀ x ∈ l, x = m := by
  rw [list_sum_map_fin,
    Finset.sum_eq_zero_iff_of_nonneg (fun i _ => sq_nonneg _)]
  constructor
  · intro h x hx
    obtain ⟨i, rfl⟩ := List.mem_iff_get.mp hx
    have hz := h i (Finset.mem_univ i)
    have h0 := sub_eq_zero.mp (pow_eq_zero_iff two_ne_zero |>.mp hz)
    simpa [List.get_eq_getElem] using h0
  · intro h i _
    have hm := h (l.get i) (List.get_mem l i.1 i.2)
    rw [List.get_eq_getElem] at hm
    simp [hm]

theorem listMean_const (l : List ℝ) (c : ℝ) (hne : l ≠ []) (h : ∀ x ∈ l, x = c) :
    listMean l = c := by
  unfold listMean
  rw [List.sum_eq_card_nsmul l c h, nsmul_eq_mul]
  have hl : (l.length : ℝ) ≠ 0 := by
    simpa using fun h0 => hne (List.length_eq_zero.mp h0)
  field_simp

theorem const_iff_eq_mean (l : List ℝ) (hne : l ≠ []) :
    (∀ x ∈ l, x = listMean l) ↔ ∀ x ∈ l, ∀ y ∈ l, x = y := by
  constructor
  · intro h x hx y hy
    rw [h x hx, h y hy]
  · intro h x hx
    exact (listMean_const l x hne (fun y hy => h y hy x hx)).symm ▸ rfl

theorem pearsonDenomX_eq_zero_iff (pairs : List (ℝ × ℝ)) (hne : pairs ≠ []) :
    pearsonDenomX pairs = 0 ↔ ∀ p ∈ pairs, ∀ q ∈ pairs, p.1 = q.1 := by
  have hmne : pairs.map Prod.fst ≠ [] := by simpa using hne
  unfold pearsonDenomX
  rw [Real.sqrt_eq_zero']
  have hnn : 0 ≤ ((pairs.map Prod.fst).map
      (fun xi => (xi - listMean (pairs.map Prod.fst)) ^ 2)).sum := by
    apply List.sum_nonneg
    intro x hx
    obtain ⟨y, -, rfl⟩ := List.mem_map.mp hx
    exact sq_nonneg _
  constructor
  · intro hle
    have h0 := le_antisymm hle hnn
    rw [sum_sq_dev_eq_zero_iff] at h0
    have hconst := (const_iff_eq_mean (pairs.map Prod.fst) hmne).mp h0
    intro p hp q hq
    exact hconst p.1 (List.mem_map_of_mem _ hp) q.1 (List.mem_map_of_mem _ hq)
  · intro hconst
    refine le_of_eq ((sum_sq_dev_eq_zero_iff _ _).mpr
      ((const_iff_eq_mean _ hmne).mpr ?_))
    intro x hx y hy
    obtain ⟨p, hp, rfl⟩ := List.mem_map.mp hx
    obtain ⟨q, hq, rfl⟩ := List.mem_map.mp hy
    exact hconst p hp q hq

theorem pearsonDenomY_eq_zero_iff (pairs : List (ℝ × ℝ)) (hne : pairs ≠ []) :
    pearsonDenomY pairs = 0 ↔ ∀ p ∈ pairs, ∀ q ∈ pairs, p.2 = q.2 := by
  have hmne : pairs.map Prod.snd ≠ [] := by simpa using hne
  unfold pearsonDenomY
  rw [Real.sqrt_eq_zero']
  have hnn : 0 ≤ ((pairs.map Prod.snd).map
      (fun yi => (yi - listMean (pairs.map Prod.snd)) ^ 2)).sum := by
    apply List.sum_nonneg
    intro x hx
    obtain ⟨y, -, rfl⟩ := List.mem_map.mp hx
    exact sq_nonneg _
  constructor
  · intro hle
    have h0 := le_antisymm hle hnn
    rw [sum_sq_dev_eq_zero_iff] at h0
    have hconst := (const_iff_eq_mean (pairs.map Prod.snd) hmne).mp h0
    intro p hp q hq
    exact hconst p.2 (List.mem_map_of_mem _ hp) q.2 (List.mem_map_of_mem _ hq)
  · intro hconst
    refine le_of_eq ((sum_sq_dev_eq_zero_iff _ _).mpr
      ((const_iff_eq_mean _ hmne).mpr ?_))
    intro x hx y hy
    obtain ⟨p, hp, rfl⟩ := List.mem_map.mp hx
    obtain ⟨q, hq, rfl⟩ := List.mem_map.mp hy
    exact hconst p hp q hq

/-- Cauchy–Schwarz for the Pearson pieces: the numerator is bounded in
absolute value by the product of the two denominator factors. -/
theorem abs_pearsonNumerator_le (pairs : List (ℝ × ℝ)) :
    |pearsonNumerator pairs| ≤ pearsonDenomX pairs * pearsonDenomY pairs := by
  unfold pearsonNumerator pearsonDenomX pearsonDenomY
  dsimp only
  rw [List.map_map, List.map_map]
  simp only [Function.comp_def]
  rw [list_sum_map_fin, list_sum_map_fin, list_sum_map_fin]
  set mx := listMean (pairs.map Prod.fst) with hmx
  set my := listMean (pairs.map Prod.snd) with hmy
  have hcs := Finset.sum_mul_sq_le_sq_mul_sq Finset.univ
    (fun i : Fin pairs.length => (pairs.get i).1 - mx)
    (fun i : Fin pairs.length => (pairs.get i).2 - my)
  have h1 : |∑ i : Fin pairs.length, ((pairs.get i).1 - mx) * ((pairs.get i).2 - my)| =
      Real.sqrt ((∑ i : Fin pairs.length,
        ((pairs.get i).1 - mx) * ((pairs.get i).2 - my)) ^ 2) :=
    (Real.sqrt_sq_eq_abs _).symm
  rw [h1, ← Real.sqrt_mul (Finset.sum_nonneg fun i _ => sq_nonneg _)]
  exact Real.sqrt_le_sqrt hcs

theorem pyRoundR_le (x : ℝ) (B : ℤ) (h : x ≤ B) : pyRoundR x ≤ B := by
  have hfl : ⌊x⌋ ≤ B := by
    have := Int.floor_le_floor h
    simpa using this
  have hplus : ¬Int.fract x < 1/2 → ⌊x⌋ + 1 ≤ B := by
    intro hge
    rcases lt_or_eq_of_le hfl with hlt | heq
    · omega
    · exfalso
      have hfr : Int.fract x = x - (B : ℝ) := by rw [Int.fract, heq]
      have h0 : x - (B : ℝ) ≤ 0 := sub_nonpos.mpr h
      push_neg at hge
      rw [hfr] at hge
      linarith
  unfold pyRoundR
  split_ifs with h1 h2 h3
  · exact hfl
  · exact hplus h1
  · exact hfl
  · exact hplus h1

theorem le_pyRoundR (x : ℝ) (B : ℤ) (h : (B : ℝ) ≤ x) : B ≤ pyRoundR x := by
  have hfl : B ≤ ⌊x⌋ := Int.le_floor.mpr h
  unfold pyRoundR
  split_ifs <;> omega

theorem pyRound3R_mem_Icc (x : ℝ) (h : |x| ≤ 1) :
    -1 ≤ pyRound3R x ∧ pyRound3R x ≤ 1 := by
  obtain ⟨hlo, hhi⟩ := abs_le.mp h
  have hub : x * 1000 ≤ ((1000 : ℤ) : ℝ) := by push_cast; linarith
  have hlb : ((-1000 : ℤ) : ℝ) ≤ x * 1000 := by push_cast; linarith
  have h1 := pyRoundR_le (x * 1000) 1000 hub
  have h2 := le_pyRoundR (x * 1000) (-1000) hlb
  have h1R : ((pyRoundR (x * 1000) : ℤ) : ℝ) ≤ 1000 := by exact_mod_cast h1
  have h2R : (-1000 : ℝ) ≤ ((pyRoundR (x * 1000) : ℤ) : ℝ) := by exact_mod_cast h2
  unfold pyRound3R
  constructor
  · rw [le_div_iff₀ (by norm_num : (0:ℝ) < 1000)]
    linarith
  · rw [div_le_iff₀ (by norm_num : (0:ℝ) < 1000)]
    linarith

/-- Claim C4 (confirmed): a non-null Pearson coefficient always lies in
[-1, 1], and the result is null exactly when the pair count is below 3 or
either variable is constant across all pairs. -/
theorem c4_pearson_bounds_and_nullity (pairs : List (ℝ × ℝ)) :
    (∀ c : ℝ, pearson_correlation pairs = some c → -1 ≤ c ∧ c ≤ 1) ∧
    (pearson_correlation pairs = none ↔
      pairs.length < 3 ∨ (∀ p ∈ pairs, ∀ q ∈ pairs, p.1 = q.1) ∨
        ∀ p ∈ pairs, ∀ q ∈ pairs, p.2 = q.2) := by
  by_cases hl : pairs.length < 3
  · refine ⟨fun c hc => ?_, ?_⟩
    · simp [pearson_correlation, hl] at hc
    · simp [pearson_correlation, hl]
  · have hne : pairs ≠ [] := by
      intro h0
      rw [h0] at hl
      simp at hl
    have hxiff := pearsonDenomX_eq_zero_iff pairs hne
    have hyiff := pearsonDenomY_eq_zero_iff pairs hne
    by_cases hd : pearsonDenomX pairs = 0 ∨ pearsonDenomY pairs = 0
    · refine ⟨fun c hc => ?_, ?_⟩
      · simp [pearson_correlation, hl, hd] at hc
      · refine ⟨fun _ => Or.inr (hd.imp hxiff.mp hyiff.mp), fun _ => ?_⟩
        simp [pearson_correlation, hl, hd]
    · refine ⟨fun c hc => ?_, ?_⟩
      · simp only [pearson_correlation, hl, hd, if_false, Option.some.injEq] at hc
        push_neg at hd
        obtain ⟨hdx, hdy⟩ := hd
        have hdx0 : 0 ≤ pearsonDenomX pairs := by
          unfold pearsonDenomX
          exact Real.sqrt_nonneg _
        have hdy0 : 0 ≤ pearsonDenomY pairs := by
          unfold pearsonDenomY
          exact Real.sqrt_nonneg _
        have hprod : 0 < pearsonDenomX pairs * pearsonDenomY pairs :=
          mul_pos (lt_of_le_of_ne hdx0 (Ne.symm hdx))
            (lt_of_le_of_ne hdy0 (Ne.symm hdy))
        have habs : |pearsonNumerator pairs /
            (pearsonDenomX pairs * pearsonDenomY pairs)| ≤ 1 := by
          rw [abs_div, abs_of_pos hprod]
          exact (div_le_one hprod).mpr (abs_pearsonNumerator_le pairs)
        rw [← hc]
        exact pyRound3R_mem_Icc _ habs
      · refine ⟨fun hnone => ?_, fun hOr => ?_⟩
        · simp [pearson_correlation, hl, hd] at hnone
        · exfalso
          rcases hOr with h3 | hx | hy
          · exact hl h3
          · exact hd (Or.inl (hxiff.mpr hx))
          · exact hd (Or.inr (hyiff.mpr hy))

/-- Witness for C4 on the empty pair list (count below 3 ⟹ null). -/
theorem c4_pearson_bounds_and_nullity_witness :
    pearson_correlation ([] : List (ℝ × ℝ)) = none :=
  (c4_pearson_bounds_and_nullity []).2.mpr (Or.inl (by decide))
